import Mathlib

/-!
Shallow embedding of the FocusFlow backend (`src/unnamed/part_005`): the task
store, the device registry, coordinate validation, the quiet-hours check, the
FCM token pruning of `sendNotification`, the `/users/fcm-token` upsert, the
`/tasks` create/update handlers, the `/tasks/sync` reconciler and the
`checkAndSendReminders` scheduler job.

Conventions:
- Mongo documents become Lean structures; a field the schema leaves without a
  default (it may be absent/`undefined`/`null`) becomes an `Option`.
- Epoch-millisecond instants and hours are `Int`; latitude/longitude are `ℚ`
  (JS numbers used only in comparisons against integer bounds).
- The database is a list of documents plus a fresh-id counter standing for
  ObjectId generation.
-/

namespace FocusFlow

/-- A task document (schema `taskSchema`). `completed` and `reminderSent`
default to `false`; other fields may be absent. -/
structure Task where
  id : Nat
  userId : String
  title : Option String
  priority : Option String
  completed : Bool
  allDay : Option Bool
  startTime : Option Int
  endTime : Option Int
  location : Option String
  latitude : Option ℚ
  longitude : Option ℚ
  reminderOffsetMinutes : Option Int
  reminderSent : Bool
  deriving Repr, DecidableEq

/-- One entry of a user's `fcmTokens` array. -/
structure FcmToken where
  token : String
  deviceId : Option String
  updatedAt : Int
  deriving Repr, DecidableEq

/-- A user document (schema `userSchema`). -/
structure UserRec where
  userId : String
  fcmTokens : List FcmToken
  notificationEnabled : Bool
  reminderEnabled : Bool
  quietHoursStart : Option Int
  quietHoursEnd : Option Int
  lastSyncTime : Option Int
  deriving Repr, DecidableEq

/-- The task store: persisted tasks plus the next fresh server id. -/
structure DB where
  nextId : Nat
  tasks : List Task
  deriving Repr, DecidableEq

/-- A request body for create/update: each field is present (`some`) or absent.
`userId`, `localId` and `_id` are handled separately by each route. -/
structure TaskPayload where
  title : Option String := none
  priority : Option String := none
  completed : Option Bool := none
  allDay : Option Bool := none
  startTime : Option Int := none
  endTime : Option Int := none
  location : Option String := none
  latitude : Option ℚ := none
  longitude : Option ℚ := none
  reminderOffsetMinutes : Option Int := none
  reminderSent : Option Bool := none
  deriving Repr, DecidableEq

/-- `validateCoordinates(lat, lng)`: a present latitude outside [-90, 90] or a
present longitude outside [-180, 180] is rejected; `none` means valid. -/
def validateCoordinates (lat lng : Option ℚ) : Option String :=
  if lat.any (fun v => v < -90 || v > 90) then
    some "Latitude must be between -90 and 90"
  else if lng.any (fun v => v < -180 || v > 180) then
    some "Longitude must be between -180 and 180"
  else
    none

/-- JS truthiness of an optional hour: `!user.quietHoursStart` is `true` when
the field is absent, `null`, or the number `0`. -/
def hourFalsy : Option Int → Bool
  | none => true
  | some h => h == 0

/-- `isQuietHours(user)` at local hour `currentHour`: returns `false` when
either bound is falsy (absent or 0); otherwise the window is
`[start, end)` when `start <= end` and wraps midnight when `start > end`. -/
def isQuietHours (u : UserRec) (currentHour : Int) : Bool :=
  if hourFalsy u.quietHoursStart || hourFalsy u.quietHoursEnd then false
  else
    match u.quietHoursStart, u.quietHoursEnd with
    | some s, some e =>
        if s ≤ e then s ≤ currentHour && currentHour < e
        else s ≤ currentHour || currentHour < e
    | _, _ => false

/-- One per-token response from `admin.messaging().sendAll`. -/
structure SendResponse where
  success : Bool
  errorCode : Option String
  deriving Repr, DecidableEq

/-- The two error codes that `sendNotification` treats as permanent
invalidity of a registration token. -/
def isPermanentError (r : SendResponse) : Bool :=
  !r.success &&
    (r.errorCode == some "messaging/invalid-registration-token" ||
     r.errorCode == some "messaging/registration-token-not-registered")

/-- The `invalidTokens` array built by `sendNotification`: the token string at
every index whose response failed with a permanent error code. -/
def invalidTokens (tokens : List FcmToken) (responses : List SendResponse) :
    List String :=
  (tokens.zip responses).filterMap
    (fun p => if isPermanentError p.2 then some p.1.token else none)

/-- The `$pull { fcmTokens: { token: { $in: invalid } } }` update: every entry
whose token string is in `invalid` is removed; removal is by token value. -/
def pullTokens (current : List FcmToken) (invalid : List String) :
    List FcmToken :=
  current.filter (fun t => !invalid.contains t.token)

/-- The registry after `sendNotification` cleans up: entries whose token was
collected in `invalidTokens` are pulled. -/
def pruneAfterSend (tokens : List FcmToken) (responses : List SendResponse) :
    List FcmToken :=
  pullTokens tokens (invalidTokens tokens responses)

/-- The `findIndex` predicate of `POST /users/fcm-token`:
`t.token === fcmToken || (deviceId && t.deviceId === deviceId)`. -/
def regMatches (fcmToken : String) (deviceId : Option String)
    (t : FcmToken) : Bool :=
  t.token == fcmToken || (deviceId.isSome && t.deviceId == deviceId)

/-- `POST /users/fcm-token` on an existing user's `fcmTokens` array: find the
first entry matching by token or deviceId and update it in place
(`deviceId || existing`), else push a new entry at the end. -/
def registerDevice (fcmToken : String) (deviceId : Option String) (now : Int) :
    List FcmToken → List FcmToken
  | [] => [{ token := fcmToken, deviceId := deviceId, updatedAt := now }]
  | t :: ts =>
      if regMatches fcmToken deviceId t then
        { token := fcmToken,
          deviceId := match deviceId with
            | some d => some d
            | none => t.deviceId,
          updatedAt := now } :: ts
      else
        t :: registerDevice fcmToken deviceId now ts

/-- Applying a request body to an existing task: every present field
overwrites, every absent field is kept (Mongo update / `Object.assign`). The
server id is never touched. -/
def applyPayload (t : Task) (p : TaskPayload) : Task :=
  { t with
    title := match p.title with | some v => some v | none => t.title
    priority := match p.priority with | some v => some v | none => t.priority
    completed := p.completed.getD t.completed
    allDay := match p.allDay with | some v => some v | none => t.allDay
    startTime := match p.startTime with | some v => some v | none => t.startTime
    endTime := match p.endTime with | some v => some v | none => t.endTime
    location := match p.location with | some v => some v | none => t.location
    latitude := match p.latitude with | some v => some v | none => t.latitude
    longitude := match p.longitude with | some v => some v | none => t.longitude
    reminderOffsetMinutes :=
      match p.reminderOffsetMinutes with
      | some v => some v
      | none => t.reminderOffsetMinutes
    reminderSent := p.reminderSent.getD t.reminderSent }

/-- A freshly persisted task: `new Task({ ...fields, userId, completed: false })`.
Only `completed` is forced; `reminderSent` falls back to its schema default. -/
def newTaskFromPayload (id : Nat) (userId : String) (p : TaskPayload) : Task :=
  { id := id
    userId := userId
    title := p.title
    priority := p.priority
    completed := false
    allDay := p.allDay
    startTime := p.startTime
    endTime := p.endTime
    location := p.location
    latitude := p.latitude
    longitude := p.longitude
    reminderOffsetMinutes := p.reminderOffsetMinutes
    reminderSent := p.reminderSent.getD false }

/-- `Task.findOne({ _id, userId })`. -/
def findTask (userId : String) (id : Nat) (tasks : List Task) : Option Task :=
  tasks.find? (fun t => t.id == id && t.userId == userId)

/-- `POST /tasks`: validate coordinates, then persist
`new Task({ ...body, userId, completed: false })` and return the new task. -/
def createTask (userId : String) (p : TaskPayload) (db : DB) :
    Except String (DB × Task) :=
  match validateCoordinates p.latitude p.longitude with
  | some e => Except.error e
  | none =>
      let t := newTaskFromPayload db.nextId userId p
      Except.ok ({ nextId := db.nextId + 1, tasks := db.tasks ++ [t] }, t)

/-- `PUT /tasks/:id`: coordinates are validated only when the body mentions
latitude or longitude; then `findOneAndUpdate({ _id, userId }, body)` applies
the body to the owner-scoped task and returns the updated document. -/
def updateTask (userId : String) (id : Nat) (p : TaskPayload)
    (tasks : List Task) : Except String (List Task × Task) :=
  match
    (if p.latitude.isSome || p.longitude.isSome then
      validateCoordinates p.latitude p.longitude
    else none) with
  | some e => Except.error e
  | none =>
      match findTask userId id tasks with
      | none => Except.error "Task not found or not authorized"
      | some t =>
          Except.ok
            (tasks.map (fun x =>
                if x.id == id && x.userId == userId then applyPayload x p
                else x),
             applyPayload t p)

/-- One item of a `POST /tasks/sync` batch: the client correlation id, the
server id the client believes it has, and the field payload. -/
structure SyncItem where
  localId : Option String := none
  serverId : Option Nat := none
  fields : TaskPayload := {}
  deriving Repr, DecidableEq

inductive SyncStatus
  | created
  | updated
  deriving Repr, DecidableEq

/-- One entry of the `synced` response array. -/
structure SyncOk where
  localId : Option String
  remoteId : Nat
  status : SyncStatus
  deriving Repr, DecidableEq

/-- One entry of the `errors` response array. -/
structure SyncErr where
  localId : Option String
  error : String
  deriving Repr, DecidableEq

/-- The per-item body of the sync loop: validate coordinates (error, no
write); with a server id, update the owner-scoped task when found
(`Object.assign` of the payload, `userId` re-forced) else create a new task
with the caller as owner; with no server id, create. -/
def syncItem (userId : String) (item : SyncItem) (db : DB) :
    DB × (SyncOk ⊕ SyncErr) :=
  match validateCoordinates item.fields.latitude item.fields.longitude with
  | some e => (db, Sum.inr { localId := item.localId, error := e })
  | none =>
      match item.serverId with
      | some sid =>
          match findTask userId sid db.tasks with
          | some _ =>
              ({ db with
                  tasks := db.tasks.map (fun t =>
                    if t.id == sid && t.userId == userId then
                      { applyPayload t item.fields with userId := userId }
                    else t) },
               Sum.inl { localId := item.localId, remoteId := sid,
                         status := SyncStatus.updated })
          | none =>
              ({ nextId := db.nextId + 1,
                 tasks :=
                   db.tasks ++ [newTaskFromPayload db.nextId userId item.fields] },
               Sum.inl { localId := item.localId, remoteId := db.nextId,
                         status := SyncStatus.created })
      | none =>
          ({ nextId := db.nextId + 1,
             tasks :=
               db.tasks ++ [newTaskFromPayload db.nextId userId item.fields] },
           Sum.inl { localId := item.localId, remoteId := db.nextId,
                     status := SyncStatus.created })

/-- The sync loop: items processed in order, each one appending either a
`synced` entry or an `errors` entry. -/
def syncBatch (userId : String) (items : List SyncItem) (db : DB) :
    DB × List SyncOk × List SyncErr :=
  match items with
  | [] => (db, [], [])
  | i :: rest =>
      let step := syncItem userId i db
      let tail := syncBatch userId rest step.1
      match step.2 with
      | Sum.inl ok => (tail.1, ok :: tail.2.1, tail.2.2)
      | Sum.inr e => (tail.1, tail.2.1, e :: tail.2.2)

/-- `User.findOneAndUpdate({ userId }, { lastSyncTime: now }, { upsert: true })`:
set the first matching user's `lastSyncTime`, or insert a fresh user document
(schema defaults) carrying it. -/
def setLastSync (userId : String) (now : Int) : List UserRec → List UserRec
  | [] =>
      [{ userId := userId, fcmTokens := [], notificationEnabled := true,
         reminderEnabled := true, quietHoursStart := none,
         quietHoursEnd := none, lastSyncTime := some now }]
  | u :: us =>
      if u.userId == userId then { u with lastSyncTime := some now } :: us
      else u :: setLastSync userId now us

/-- The stored `lastSyncTime` of a user. -/
def userLastSync (userId : String) (users : List UserRec) : Option Int :=
  (users.find? (fun u => u.userId == userId)).bind (fun u => u.lastSyncTime)

/-- Everything `POST /tasks/sync` leaves behind. -/
structure ReconcileOut where
  db : DB
  users : List UserRec
  synced : List SyncOk
  errors : List SyncErr
  deriving Repr, DecidableEq

/-- `POST /tasks/sync`: run the batch, then update the caller's
`lastSyncTime` unconditionally, and answer with `synced` and `errors`. -/
def reconcile (userId : String) (items : List SyncItem) (now : Int) (db : DB)
    (users : List UserRec) : ReconcileOut :=
  let r := syncBatch userId items db
  { db := r.1, users := setLastSync userId now users,
    synced := r.2.1, errors := r.2.2 }

/-- The candidate filter of `checkAndSendReminders`' `Task.find` query:
`reminderOffsetMinutes` exists and is non-null, `startTime > now`,
`completed: false`, `reminderSent ≠ true`. -/
def isCandidate (now : Int) (t : Task) : Bool :=
  t.reminderOffsetMinutes.isSome &&
  (match t.startTime with
   | some s => decide (now < s)
   | none => false) &&
  !t.completed && !t.reminderSent

/-- The windowing test of the scheduler loop:
`reminderTime = startTime - offset*60000` lies in `(now - 60000, now]`. -/
def reminderDue (now : Int) (t : Task) : Bool :=
  match t.startTime, t.reminderOffsetMinutes with
  | some s, some m =>
      decide (s - m * 60000 ≤ now ∧ now - 60000 < s - m * 60000)
  | _, _ => false

/-- The tasks for which one run of `checkAndSendReminders` at time `now`
issues a dispatch (calls `sendNotification`). -/
def schedulerDispatched (now : Int) (tasks : List Task) : List Task :=
  (tasks.filter (isCandidate now)).filter (reminderDue now)

/-- The effect of one scheduler run on a single stored task: when it is a
candidate, due, and the dispatch succeeded, `reminderSent` is persisted as
`true`; otherwise the task is untouched. `ok` abstracts the outcome of
`sendNotification` for this task. -/
def schedStep (now : Int) (ok : Task → Bool) (t : Task) : Task :=
  if isCandidate now t && reminderDue now t && ok t then
    { t with reminderSent := true }
  else t

/-- The store after one run of `checkAndSendReminders`. -/
def runScheduler (now : Int) (ok : Task → Bool) (tasks : List Task) :
    List Task :=
  tasks.map (schedStep now ok)

/-- All dispatches issued across a sequence of scheduler runs, each run seeing
the store the previous one left. -/
def dispatchedInRuns : List (Int × (Task → Bool)) → List Task → List Task
  | [], _ => []
  | (now, ok) :: rest, tasks =>
      schedulerDispatched now tasks ++
        dispatchedInRuns rest (runScheduler now ok tasks)

/-! ### Concrete fixtures used by witnesses and counterexamples -/

/-- "Pay rent" one hour out, reminder one hour before: `reminderTime = 0`. -/
def witReminderTask : Task :=
  { id := 7, userId := "u", title := some "Pay rent", priority := none,
    completed := false, allDay := none, startTime := some 3600000,
    endTime := none, location := none, latitude := none, longitude := none,
    reminderOffsetMinutes := some 60, reminderSent := false }

/-- A task whose reminder was already marked sent. -/
def sentTask : Task :=
  { id := 1, userId := "u", title := some "t", priority := none,
    completed := false, allDay := none, startTime := some 3600000,
    endTime := none, location := none, latitude := none, longitude := none,
    reminderOffsetMinutes := some 60, reminderSent := true }

/-- A `PUT /tasks/:id` body that sets `reminderSent` back to `false`. -/
def resetBody : TaskPayload := { reminderSent := some false }

/-- A task owned by another user, target of a stale-id sync item. -/
def foreignTask : Task :=
  { id := 5, userId := "other", title := some "theirs", priority := none,
    completed := false, allDay := none, startTime := none, endTime := none,
    location := none, latitude := none, longitude := none,
    reminderOffsetMinutes := none, reminderSent := false }

/-- Store holding only the foreign task. -/
def foreignDB : DB := { nextId := 6, tasks := [foreignTask] }

/-- Sync item carrying the foreign task's server id. -/
def staleItem : SyncItem :=
  { localId := some "L1", serverId := some 5,
    fields := { title := some "mine" } }

/-- User with quiet hours configured to start at midnight (hour 0). -/
def midnightUser : UserRec :=
  { userId := "q", fcmTokens := [], notificationEnabled := true,
    reminderEnabled := true, quietHoursStart := some 0,
    quietHoursEnd := some 6, lastSyncTime := none }

/-- User with the spec's wrap-around scenario: quiet 22:00 to 6:00. -/
def wrapUser : UserRec :=
  { midnightUser with quietHoursStart := some 22, quietHoursEnd := some 6 }

/-- Two registered devices. -/
def witRegistry : List FcmToken :=
  [{ token := "tokA", deviceId := some "devA", updatedAt := 0 },
   { token := "tokB", deviceId := some "devB", updatedAt := 0 }]

/-- Gateway responses: first token fine, second permanently unregistered. -/
def witResponses : List SendResponse :=
  [{ success := true, errorCode := none },
   { success := false,
     errorCode := some "messaging/registration-token-not-registered" }]

/-- Three registrations: (A, D1), then (B, D2), then token B re-registered
under device D1. -/
def regSeq : List FcmToken :=
  registerDevice "B" (some "D1") 2
    (registerDevice "B" (some "D2") 1
      (registerDevice "A" (some "D1") 0 []))

/-- A fresh sync item with no server id. -/
def freshItem : SyncItem :=
  { localId := some "L2", serverId := none,
    fields := { title := some "hello" } }

/-- The same item re-sent with the server id returned by the first sync. -/
def freshItemAgain : SyncItem := { freshItem with serverId := some 0 }

/-- The store after the first sync of `freshItem` against an empty store. -/
def dbAfterFirst : DB :=
  { nextId := 1, tasks := [newTaskFromPayload 0 "u" freshItem.fields] }

/-- A payload whose coordinates are in range. -/
def goodGeo : TaskPayload := { latitude := some 45, longitude := some 90 }

/-- A payload whose latitude is out of range. -/
def badGeo : TaskPayload := { latitude := some 100 }

/-- A payload claiming the task is already completed. -/
def completedBody : TaskPayload := { title := some "done?", completed := some true }

/-! ### Supporting lemmas -/

theorem applyPayload_id (t : Task) (p : TaskPayload) :
    (applyPayload t p).id = t.id := rfl

theorem syncItem_invalid (u : String) (item : SyncItem) (db : DB) (e : String)
    (hv : validateCoordinates item.fields.latitude item.fields.longitude =
      some e) :
    syncItem u item db = (db, Sum.inr { localId := item.localId, error := e }) := by
  simp only [syncItem, hv]

theorem syncItem_create_of_noId (u : String) (item : SyncItem) (db : DB)
    (hid : item.serverId = none)
    (hv : validateCoordinates item.fields.latitude item.fields.longitude =
      none) :
    syncItem u item db =
      ({ nextId := db.nextId + 1,
         tasks := db.tasks ++ [newTaskFromPayload db.nextId u item.fields] },
       Sum.inl { localId := item.localId, remoteId := db.nextId,
                 status := SyncStatus.created }) := by
  simp only [syncItem, hv, hid]

theorem syncItem_create_of_stale (u : String) (item : SyncItem) (db : DB)
    (sid : Nat) (hid : item.serverId = some sid)
    (hv : validateCoordinates item.fields.latitude item.fields.longitude =
      none)
    (hf : findTask u sid db.tasks = none) :
    syncItem u item db =
      ({ nextId := db.nextId + 1,
         tasks := db.tasks ++ [newTaskFromPayload db.nextId u item.fields] },
       Sum.inl { localId := item.localId, remoteId := db.nextId,
                 status := SyncStatus.created }) := by
  simp only [syncItem, hv, hid, hf]

theorem syncItem_update_of_found (u : String) (item : SyncItem) (db : DB)
    (sid : Nat) (t0 : Task) (hid : item.serverId = some sid)
    (hv : validateCoordinates item.fields.latitude item.fields.longitude =
      none)
    (hf : findTask u sid db.tasks = some t0) :
    syncItem u item db =
      ({ db with
          tasks := db.tasks.map (fun t =>
            if t.id == sid && t.userId == u then
              { applyPayload t item.fields with userId := u }
            else t) },
       Sum.inl { localId := item.localId, remoteId := sid,
                 status := SyncStatus.updated }) := by
  simp only [syncItem, hv, hid, hf]

theorem applyPayload_reminderSent_true (t : Task) (p : TaskPayload)
    (hp : p.reminderSent ≠ some false) (ht : t.reminderSent = true) :
    (applyPayload t p).reminderSent = true := by
  show p.reminderSent.getD t.reminderSent = true
  cases hb : p.reminderSent with
  | none => simpa [hb] using ht
  | some b =>
      cases b with
      | false => exact absurd hb hp
      | true => simp [hb]

theorem dispatched_reminderSent_false (now : Int) (tasks : List Task)
    (u : Task) (hu : u ∈ schedulerDispatched now tasks) :
    u.reminderSent = false := by
  rcases List.mem_filter.mp hu with ⟨hu1, -⟩
  rcases List.mem_filter.mp hu1 with ⟨-, hc⟩
  unfold isCandidate at hc
  simp only [Bool.and_eq_true, Bool.not_eq_true'] at hc
  exact hc.2

theorem dispatchedInRuns_reminderSent_false (runs : List (Int × (Task → Bool)))
    (tasks : List Task) (u : Task) (hu : u ∈ dispatchedInRuns runs tasks) :
    u.reminderSent = false := by
  induction runs generalizing tasks with
  | nil => simp [dispatchedInRuns] at hu
  | cons r rest ih =>
      rcases List.mem_append.mp hu with h | h
      · exact dispatched_reminderSent_false r.1 tasks u h
      · exact ih _ h

theorem syncBatch_length (u : String) (items : List SyncItem) (db : DB) :
    (syncBatch u items db).2.1.length + (syncBatch u items db).2.2.length =
      items.length := by
  induction items generalizing db with
  | nil => simp [syncBatch]
  | cons i rest ih =>
      simp only [syncBatch]
      cases hstep : (syncItem u i db).2 with
      | inl ok =>
          have := ih (syncItem u i db).1
          simp only [List.length_cons]
          omega
      | inr e =>
          have := ih (syncItem u i db).1
          simp only [List.length_cons]
          omega

theorem userLastSync_setLastSync (u : String) (now : Int)
    (users : List UserRec) :
    userLastSync u (setLastSync u now users) = some now := by
  induction users with
  | nil => simp [setLastSync, userLastSync, List.find?]
  | cons r rs ih =>
      cases h : r.userId == u with
      | true => simp [setLastSync, userLastSync, List.find?, h]
      | false =>
          simp only [setLastSync, h, Bool.false_eq_true, if_false]
          simp only [userLastSync, List.find?, h] at ih ⊢
          exact ih

theorem syncBatch_error_head (u : String) (i : SyncItem)
    (rest : List SyncItem) (db : DB) (e : String)
    (hv : validateCoordinates i.fields.latitude i.fields.longitude = some e) :
    syncBatch u (i :: rest) db =
      ((syncBatch u rest db).1, (syncBatch u rest db).2.1,
       { localId := i.localId, error := e } :: (syncBatch u rest db).2.2) := by
  simp only [syncBatch, syncItem_invalid u i db e hv]

theorem findTask_isSome_of_exists (u : String) (sid : Nat)
    (tasks : List Task) (hex : ∃ t ∈ tasks, t.id = sid ∧ t.userId = u) :
    ∃ t0, findTask u sid tasks = some t0 := by
  cases hf : findTask u sid tasks with
  | some t0 => exact ⟨t0, rfl⟩
  | none =>
      obtain ⟨t, ht, h1, h2⟩ := hex
      have := List.find?_eq_none.mp hf t ht
      simp [h1, h2] at this

theorem syncItem_ok_task_exists (u : String) (item : SyncItem) (db db1 : DB)
    (ok : SyncOk) (h : syncItem u item db = (db1, Sum.inl ok)) :
    ∃ t ∈ db1.tasks, t.id = ok.remoteId ∧ t.userId = u := by
  cases hv : validateCoordinates item.fields.latitude item.fields.longitude with
  | some e =>
      rw [syncItem_invalid u item db e hv] at h
      simp at h
  | none =>
      cases hsid : item.serverId with
      | none =>
          rw [syncItem_create_of_noId u item db hsid hv] at h
          injection h with hdb hok
          injection hok with hok
          subst hdb; subst hok
          exact ⟨newTaskFromPayload db.nextId u item.fields,
            List.mem_append_right _ (List.mem_singleton.mpr rfl), rfl, rfl⟩
      | some sid =>
          cases hf : findTask u sid db.tasks with
          | none =>
              rw [syncItem_create_of_stale u item db sid hsid hv hf] at h
              injection h with hdb hok
              injection hok with hok
              subst hdb; subst hok
              exact ⟨newTaskFromPayload db.nextId u item.fields,
                List.mem_append_right _ (List.mem_singleton.mpr rfl), rfl, rfl⟩
          | some t0 =>
              rw [syncItem_update_of_found u item db sid t0 hsid hv hf] at h
              injection h with hdb hok
              injection hok with hok
              subst hdb; subst hok
              have hf' : db.tasks.find?
                  (fun t => t.id == sid && t.userId == u) = some t0 := hf
              have ht0 : t0 ∈ db.tasks := List.mem_of_find?_eq_some hf'
              have hpred := List.find?_some hf'
              refine ⟨{ applyPayload t0 item.fields with userId := u }, ?_, ?_, rfl⟩
              · have hm := List.mem_map_of_mem
                  (fun t => if t.id == sid && t.userId == u then
                      { applyPayload t item.fields with userId := u }
                    else t) ht0
                simpa [hpred] using hm
              · show (applyPayload t0 item.fields).id = sid
                rw [applyPayload_id]
                have := (Bool.and_eq_true _ _).mp hpred
                exact beq_iff_eq.mp this.1

theorem validate_none_of_inRange (lat lng : Option ℚ)
    (hlat : ∀ v, lat = some v → -90 ≤ v ∧ v ≤ 90)
    (hlng : ∀ v, lng = some v → -180 ≤ v ∧ v ≤ 180) :
    validateCoordinates lat lng = none := by
  have h1 : lat.any (fun v => v < -90 || v > 90) = false := by
    cases lat with
    | none => rfl
    | some v =>
        have hv := hlat v rfl
        simp only [Option.any_some, Bool.or_eq_false_iff,
          decide_eq_false_iff_not, not_lt]
        exact ⟨hv.1, hv.2⟩
  have h2 : lng.any (fun v => v < -180 || v > 180) = false := by
    cases lng with
    | none => rfl
    | some v =>
        have hv := hlng v rfl
        simp only [Option.any_some, Bool.or_eq_false_iff,
          decide_eq_false_iff_not, not_lt]
        exact ⟨hv.1, hv.2⟩
  simp [validateCoordinates, h1, h2]

theorem validate_some_of_bad (lat lng : Option ℚ)
    (hbad : (∃ v, lat = some v ∧ (v < -90 ∨ 90 < v)) ∨
      (∃ v, lng = some v ∧ (v < -180 ∨ 180 < v))) :
    ∃ e, validateCoordinates lat lng = some e := by
  unfold validateCoordinates
  rcases hbad with ⟨v, hv, hout⟩ | ⟨v, hv, hout⟩
  · subst hv
    have : (some v).any (fun v => v < -90 || v > 90) = true := by
      rcases hout with h | h <;> simp [h]
    rw [this]
    exact ⟨_, rfl⟩
  · subst hv
    cases h1 : lat.any (fun v => v < -90 || v > 90) with
    | true => exact ⟨_, rfl⟩
    | false =>
        have h2 : (some v).any (fun v => v < -180 || v > 180) = true := by
          rcases hout with h | h <;> simp [h]
        simp [h2]

theorem invalidTokens_cons (t : FcmToken) (r : SendResponse)
    (ts : List FcmToken) (rs : List SendResponse) :
    invalidTokens (t :: ts) (r :: rs) =
      (if isPermanentError r then [t.token] else []) ++ invalidTokens ts rs := by
  cases hp : isPermanentError r <;> simp [invalidTokens, hp]

theorem mem_invalidTokens (tokens : List FcmToken)
    (responses : List SendResponse) (x : String) :
    x ∈ invalidTokens tokens responses ↔
      ∃ j, ∃ (hj : j < tokens.length) (hr : j < responses.length),
        (tokens.get ⟨j, hj⟩).token = x ∧
          isPermanentError (responses.get ⟨j, hr⟩) = true := by
  induction tokens generalizing responses with
  | nil => simp [invalidTokens]
  | cons t ts ih =>
      cases responses with
      | nil => simp [invalidTokens]
      | cons r rs =>
          rw [invalidTokens_cons]
          cases hp : isPermanentError r with
          | true =>
              rw [if_pos rfl]
              simp only [List.singleton_append, List.mem_cons]
              constructor
              · rintro (rfl | hx)
                · exact ⟨0, Nat.succ_pos _, Nat.succ_pos _, rfl, hp⟩
                · obtain ⟨j, hj, hr, h1, h2⟩ := (ih rs).mp hx
                  exact ⟨j + 1, Nat.succ_lt_succ hj, Nat.succ_lt_succ hr,
                    h1, h2⟩
              · rintro ⟨j, hj, hr, h1, h2⟩
                cases j with
                | zero => exact Or.inl h1.symm
                | succ j =>
                    exact Or.inr ((ih rs).mpr ⟨j, Nat.lt_of_succ_lt_succ hj,
                      Nat.lt_of_succ_lt_succ hr, h1, h2⟩)
          | false =>
              rw [if_neg (by simp), List.nil_append]
              constructor
              · intro hx
                obtain ⟨j, hj, hr, h1, h2⟩ := (ih rs).mp hx
                exact ⟨j + 1, Nat.succ_lt_succ hj, Nat.succ_lt_succ hr,
                  h1, h2⟩
              · rintro ⟨j, hj, hr, h1, h2⟩
                cases j with
                | zero =>
                    have h2r : isPermanentError r = true := h2
                    rw [hp] at h2r
                    cases h2r
                | succ j =>
                    exact (ih rs).mpr ⟨j, Nat.lt_of_succ_lt_succ hj,
                      Nat.lt_of_succ_lt_succ hr, h1, h2⟩

/-! ### Claim theorems -/

/-- C1: a scheduler run at time `now` dispatches a reminder for a stored task
iff the task is a candidate (`reminderOffsetMinutes` set, `startTime`
strictly greater than `now`, not completed, reminder not sent) and
`reminderTime = startTime − reminderOffsetMinutes·60000` lies in the half-open
window `(now − 60000, now]`; at a time outside the window it is not
dispatched. -/
theorem scheduler_dispatch_iff_window (now : Int) (tasks : List Task)
    (t : Task) (ht : t ∈ tasks) :
    t ∈ schedulerDispatched now tasks ↔
      ∃ s m, t.startTime = some s ∧ t.reminderOffsetMinutes = some m ∧
        t.completed = false ∧ t.reminderSent = false ∧ now < s ∧
        now - 60000 < s - m * 60000 ∧ s - m * 60000 ≤ now := by
  unfold schedulerDispatched
  rw [List.mem_filter, List.mem_filter]
  cases hs : t.startTime with
  | none => simp [isCandidate, reminderDue, hs, ht]
  | some s =>
      cases hm : t.reminderOffsetMinutes with
      | none => simp [isCandidate, reminderDue, hs, hm, ht]
      | some m =>
          simp [isCandidate, reminderDue, hs, hm, ht]
          tauto

/-- Witness for C1: "Pay rent" starts in one hour with a 60-minute offset, so
its reminder became due exactly at a run at `now = 0`, and that run dispatches
it. -/
theorem scheduler_dispatch_iff_window_witness :
    witReminderTask ∈ schedulerDispatched 0 [witReminderTask] :=
  (scheduler_dispatch_iff_window 0 [witReminderTask] witReminderTask
      (List.mem_singleton.mpr rfl)).mpr
    ⟨3600000, 60, rfl, rfl, rfl, rfl, by decide, by decide, by decide⟩

/-- C2 counterexample: `PUT /tasks/:id` applies the request body verbatim, so
a body carrying `reminderSent: false` moves a task's `reminderSent` from
`true` back to `false`, contradicting the claimed one-way transition. -/
theorem updateTask_reverts_reminderSent_cex :
    sentTask.reminderSent = true ∧
      ∃ ts t', updateTask "u" 1 resetBody [sentTask] = Except.ok (ts, t') ∧
        t'.reminderSent = false :=
  ⟨rfl, _, _, rfl, rfl⟩

/-- C2 amended: applying an update/sync body that does not explicitly set
`reminderSent` to `false` never moves it from `true` to `false`; one scheduler
step never moves it from `true` to `false`; and every task value dispatched by
any number of scheduler runs has `reminderSent = false`, so a task whose
`reminderSent` is `true` is never dispatched by them. -/
theorem reminderSent_amended :
    (∀ (t : Task) (p : TaskPayload), p.reminderSent ≠ some false →
        t.reminderSent = true → (applyPayload t p).reminderSent = true) ∧
    (∀ (now : Int) (ok : Task → Bool) (t : Task), t.reminderSent = true →
        (schedStep now ok t).reminderSent = true) ∧
    (∀ (runs : List (Int × (Task → Bool))) (tasks : List Task) (u : Task),
        u ∈ dispatchedInRuns runs tasks → u.reminderSent = false) := by
  refine ⟨applyPayload_reminderSent_true, ?_, dispatchedInRuns_reminderSent_false⟩
  intro now ok t ht
  unfold schedStep
  split
  · rfl
  · exact ht

/-- Witness for C2 amended: a body touching only the title keeps
`reminderSent = true`, a scheduler step keeps it, and the already-sent task is
not among the dispatches of a run at time 0. -/
theorem reminderSent_amended_witness :
    (applyPayload sentTask { title := some "new title" }).reminderSent = true ∧
      (schedStep 0 (fun _ => true) sentTask).reminderSent = true ∧
      ¬ sentTask ∈ dispatchedInRuns [(0, fun _ => true)] [sentTask] :=
  ⟨reminderSent_amended.1 sentTask { title := some "new title" }
      (by decide) rfl,
   reminderSent_amended.2.1 0 (fun _ => true) sentTask rfl,
   fun h => by
     have := reminderSent_amended.2.2 [(0, fun _ => true)] [sentTask]
       sentTask h
     simp [sentTask] at this⟩

/-- C3: a sync item carrying a server id that does not identify a task owned
by the caller (nonexistent id, or an id owned by a different user) makes the
reconciler create a brand-new task owned by the caller, report status
"created", and leave every pre-existing task — in particular every other
user's task — unchanged. -/
theorem sync_foreign_id_creates (u : String) (item : SyncItem) (db : DB)
    (sid : Nat) (hid : item.serverId = some sid)
    (hv : validateCoordinates item.fields.latitude item.fields.longitude =
      none)
    (hforeign : ∀ t ∈ db.tasks, t.id = sid → t.userId ≠ u) :
    syncItem u item db =
      ({ nextId := db.nextId + 1,
         tasks := db.tasks ++ [newTaskFromPayload db.nextId u item.fields] },
       Sum.inl { localId := item.localId, remoteId := db.nextId,
                 status := SyncStatus.created }) ∧
    (newTaskFromPayload db.nextId u item.fields).userId = u := by
  have hf : findTask u sid db.tasks = none := by
    apply List.find?_eq_none.mpr
    intro t ht
    simp only [Bool.and_eq_true, beq_iff_eq, not_and]
    intro h1 h2
    exact hforeign t ht h1 h2
  exact ⟨syncItem_create_of_stale u item db sid hid hv hf, rfl⟩

/-- Witness for C3: user "me" syncs an item whose stale id 5 belongs to
"other"; a fresh task owned by "me" is appended, the foreign task is kept
verbatim, and the item reports "created". -/
theorem sync_foreign_id_creates_witness :
    syncItem "me" staleItem foreignDB =
      ({ nextId := foreignDB.nextId + 1,
         tasks := foreignDB.tasks ++
           [newTaskFromPayload foreignDB.nextId "me" staleItem.fields] },
       Sum.inl { localId := staleItem.localId, remoteId := foreignDB.nextId,
                 status := SyncStatus.created }) ∧
    (newTaskFromPayload foreignDB.nextId "me" staleItem.fields).userId = "me" :=
  sync_foreign_id_creates "me" staleItem foreignDB 5 rfl rfl (by decide)

/-- C4 (code bug): `isQuietHours` guards the window with JS truthiness
(`!user.quietHoursStart || !user.quietHoursEnd`), so a present pair whose
start is the documented-valid hour 0 is treated as absent: with
quietHoursStart = 0 and quietHoursEnd = 6 the local hour 3 lies inside the
claimed window, yet the check reports quiet hours inactive and dispatch is
not suppressed. The claim's wrap-around scenario (22 → 6) does behave as
stated. -/
theorem quiet_hours_midnight_start_inactive :
    midnightUser.quietHoursStart = some 0 ∧
      midnightUser.quietHoursEnd = some 6 ∧
      ((0 : Int) ≤ 3 ∧ (3 : Int) < 6) ∧
      isQuietHours midnightUser 3 = false ∧
      isQuietHours wrapUser 23 = true ∧
      isQuietHours wrapUser 10 = false := by
  decide

/-- C6 counterexample: after registering (token A, device D1), then
(token B, device D2), registering (token B, device D1) matches the first
entry by deviceId and overwrites its token to B, leaving two entries of the
same user that share the token "B". -/
theorem registerDevice_shared_token_cex :
    regSeq =
      [{ token := "B", deviceId := some "D1", updatedAt := 2 },
       { token := "B", deviceId := some "D2", updatedAt := 1 }] ∧
      ¬ (regSeq.map FcmToken.token).Nodup := by
  decide

/-- C6 amended: a registration whose token or deviceId matches some existing
entry updates the first matching entry in place — the entry count is
unchanged and non-matching entries are kept — and only a registration
matching no entry appends a new one; uniqueness of tokens/deviceIds across a
sequence of calls is, however, not an invariant. -/
theorem registerDevice_upsert_amended (f : String) (d : Option String)
    (n : Int) (tokens : List FcmToken) :
    (tokens.any (regMatches f d) = true →
       (registerDevice f d n tokens).length = tokens.length ∧
       ∀ t ∈ tokens, regMatches f d t = false →
         t ∈ registerDevice f d n tokens) ∧
    (tokens.any (regMatches f d) = false →
       registerDevice f d n tokens =
         tokens ++ [{ token := f, deviceId := d, updatedAt := n }]) := by
  induction tokens with
  | nil =>
      constructor
      · intro h; simp at h
      · intro _; rfl
  | cons t ts ih =>
      cases hm : regMatches f d t with
      | true =>
          constructor
          · intro _
            refine ⟨by simp [registerDevice, hm], ?_⟩
            intro x hx hxm
            rcases List.mem_cons.mp hx with rfl | hx'
            · rw [hm] at hxm; cases hxm
            · simp [registerDevice, hm, List.mem_cons, hx']
          · intro hany
            simp [List.any_cons, hm] at hany
      | false =>
          constructor
          · intro hany
            have hany' : ts.any (regMatches f d) = true := by
              simpa [List.any_cons, hm] using hany
            obtain ⟨hlen, hmem⟩ := ih.1 hany'
            refine ⟨by simp [registerDevice, hm, hlen], ?_⟩
            intro x hx hxm
            rcases List.mem_cons.mp hx with rfl | hx'
            · simp [registerDevice, hm]
            · simp only [registerDevice, hm, Bool.false_eq_true,
                if_false, List.mem_cons]
              exact Or.inr (hmem x hx' hxm)
          · intro hany
            have h2 : ts.any (regMatches f d) = false := by
              simpa [List.any_cons, hm] using hany
            simp [registerDevice, hm, ih.2 h2]

/-- Witness for C6 amended: re-registering token "tokA" with a new deviceId
keeps the registry at two entries, while a completely new token is
appended. -/
theorem registerDevice_upsert_amended_witness :
    (registerDevice "tokA" (some "devNew") 1 witRegistry).length =
        witRegistry.length ∧
      registerDevice "tokC" none 1 witRegistry =
        witRegistry ++ [{ token := "tokC", deviceId := none, updatedAt := 1 }] :=
  ⟨((registerDevice_upsert_amended "tokA" (some "devNew") 1 witRegistry).1
      (by decide)).1,
   (registerDevice_upsert_amended "tokC" none 1 witRegistry).2 (by decide)⟩

/-- C9: every item of a sync batch yields exactly one outcome (an item-level
failure never aborts the remaining items: an invalid head contributes one
error, leaves the store untouched and the rest proceed on the same store);
after the batch the caller's `lastSyncTime` is the current instant no matter
how many items errored; and the empty batch yields empty `synced` and
`errors` with the store unchanged. -/
theorem sync_batch_independent (u : String) (items : List SyncItem)
    (now : Int) (db : DB) (users : List UserRec) :
    (reconcile u items now db users).synced.length +
        (reconcile u items now db users).errors.length = items.length ∧
    userLastSync u (reconcile u items now db users).users = some now ∧
    (∀ (i : SyncItem) (rest : List SyncItem) (db0 : DB) (e : String),
       validateCoordinates i.fields.latitude i.fields.longitude = some e →
       syncBatch u (i :: rest) db0 =
         ((syncBatch u rest db0).1, (syncBatch u rest db0).2.1,
          { localId := i.localId, error := e } ::
            (syncBatch u rest db0).2.2)) ∧
    (items = [] →
       (reconcile u items now db users).synced = [] ∧
       (reconcile u items now db users).errors = [] ∧
       (reconcile u items now db users).db = db) := by
  refine ⟨syncBatch_length u items db, userLastSync_setLastSync u now users,
    fun i rest db0 e hv => syncBatch_error_head u i rest db0 e hv, ?_⟩
  rintro rfl
  exact ⟨rfl, rfl, rfl⟩

/-- Witness for C9: a two-item batch whose first item has latitude 100 still
processes the second item (one synced, one error), an empty batch leaves the
store unchanged, and both update `lastSyncTime` to the instant of the call. -/
theorem sync_batch_independent_witness :
    (reconcile "u" [{ fields := badGeo }, { fields := goodGeo }] 99
        { nextId := 0, tasks := [] } []).synced.length +
      (reconcile "u" [{ fields := badGeo }, { fields := goodGeo }] 99
        { nextId := 0, tasks := [] } []).errors.length = 2 ∧
    userLastSync "u"
      (reconcile "u" [{ fields := badGeo }, { fields := goodGeo }] 99
        { nextId := 0, tasks := [] } []).users = some 99 ∧
    syncBatch "u" [{ fields := badGeo }, { fields := goodGeo }]
        { nextId := 0, tasks := [] } =
      ((syncBatch "u" [{ fields := goodGeo }] { nextId := 0, tasks := [] }).1,
       (syncBatch "u" [{ fields := goodGeo }] { nextId := 0, tasks := [] }).2.1,
       { localId := none, error := "Latitude must be between -90 and 90" } ::
         (syncBatch "u" [{ fields := goodGeo }]
           { nextId := 0, tasks := [] }).2.2) ∧
    (reconcile "u" ([] : List SyncItem) 99 { nextId := 0, tasks := [] }
        []).db = { nextId := 0, tasks := [] } :=
  ⟨(sync_batch_independent "u" [{ fields := badGeo }, { fields := goodGeo }]
      99 { nextId := 0, tasks := [] } []).1,
   (sync_batch_independent "u" [{ fields := badGeo }, { fields := goodGeo }]
      99 { nextId := 0, tasks := [] } []).2.1,
   (sync_batch_independent "u" [{ fields := badGeo }, { fields := goodGeo }]
      99 { nextId := 0, tasks := [] } []).2.2.1 { fields := badGeo }
      [{ fields := goodGeo }] { nextId := 0, tasks := [] }
      "Latitude must be between -90 and 90" rfl,
   ((sync_batch_independent "u" [] 99 { nextId := 0, tasks := [] } []).2.2.2
      rfl).2.2⟩

/-- C7: reconcile is idempotent with a stable server id: after a first
reconcile of an item succeeds with `remoteId`, reconciling the same item again
carrying that `remoteId` finds the record (owned by the caller), reports
status "updated" with the same `remoteId`, and does not create a second
record (the task count is unchanged). -/
theorem sync_idempotent_stable_id (u : String) (item : SyncItem)
    (db db1 : DB) (ok : SyncOk)
    (hv : validateCoordinates item.fields.latitude item.fields.longitude =
      none)
    (h1 : syncItem u item db = (db1, Sum.inl ok)) :
    ∃ t0, findTask u ok.remoteId db1.tasks = some t0 ∧
      syncItem u { item with serverId := some ok.remoteId } db1 =
        ({ db1 with
            tasks := db1.tasks.map (fun t =>
              if t.id == ok.remoteId && t.userId == u then
                { applyPayload t item.fields with userId := u }
              else t) },
         Sum.inl { localId := item.localId, remoteId := ok.remoteId,
                   status := SyncStatus.updated }) ∧
      (syncItem u { item with serverId := some ok.remoteId } db1).1.tasks.length =
        db1.tasks.length := by
  obtain ⟨t0, hf⟩ := findTask_isSome_of_exists u ok.remoteId db1.tasks
    (syncItem_ok_task_exists u item db db1 ok h1)
  have h2 := syncItem_update_of_found u { item with serverId := some ok.remoteId }
    db1 ok.remoteId t0 rfl hv hf
  refine ⟨t0, hf, h2, ?_⟩
  rw [h2]
  exact List.length_map _ _

/-- Witness for C7: syncing a fresh item against an empty store creates id 0;
re-syncing the same item with serverId 0 reports "updated" with remoteId 0 and
leaves exactly one record. -/
theorem sync_idempotent_stable_id_witness :
    ∃ t0, findTask "u" 0 dbAfterFirst.tasks = some t0 ∧
      syncItem "u" { freshItem with serverId := some 0 } dbAfterFirst =
        ({ dbAfterFirst with
            tasks := dbAfterFirst.tasks.map (fun t =>
              if t.id == 0 && t.userId == "u" then
                { applyPayload t freshItem.fields with userId := "u" }
              else t) },
         Sum.inl { localId := freshItem.localId, remoteId := 0,
                   status := SyncStatus.updated }) ∧
      (syncItem "u" { freshItem with serverId := some 0 }
          dbAfterFirst).1.tasks.length = dbAfterFirst.tasks.length :=
  sync_idempotent_stable_id "u" freshItem { nextId := 0, tasks := [] }
    dbAfterFirst
    { localId := some "L2", remoteId := 0, status := SyncStatus.created }
    rfl rfl

/-- C8: a payload whose latitude is in [-90, 90] and longitude in
[-180, 180] (or absent) passes validation, `POST /tasks` succeeds, and
`PUT /tasks/:id` succeeds on an owned task; a payload with either coordinate
out of range is rejected by create and update with the validation error and
no write, and as a sync item yields an item-level error with the store
returned unchanged. -/
theorem coordinate_range_validation (u : String) (p : TaskPayload) (db : DB)
    (id : Nat) (tasks : List Task) :
    ((∀ v, p.latitude = some v → -90 ≤ v ∧ v ≤ 90) →
     (∀ v, p.longitude = some v → -180 ≤ v ∧ v ≤ 180) →
       validateCoordinates p.latitude p.longitude = none ∧
       (∃ db' t, createTask u p db = Except.ok (db', t)) ∧
       (∀ t0, findTask u id tasks = some t0 →
          ∃ ts t', updateTask u id p tasks = Except.ok (ts, t'))) ∧
    ((∃ v, p.latitude = some v ∧ (v < -90 ∨ 90 < v)) ∨
       (∃ v, p.longitude = some v ∧ (v < -180 ∨ 180 < v)) →
       ∃ e, validateCoordinates p.latitude p.longitude = some e ∧
         createTask u p db = Except.error e ∧
         updateTask u id p tasks = Except.error e ∧
         ∀ (lid : Option String) (sid : Option Nat),
           syncItem u { localId := lid, serverId := sid, fields := p } db =
             (db, Sum.inr { localId := lid, error := e })) := by
  constructor
  · intro hlat hlng
    have hv : validateCoordinates p.latitude p.longitude = none :=
      validate_none_of_inRange p.latitude p.longitude hlat hlng
    have hcreate : createTask u p db =
        Except.ok
          ({ nextId := db.nextId + 1,
             tasks := db.tasks ++ [newTaskFromPayload db.nextId u p] },
           newTaskFromPayload db.nextId u p) := by
      simp [createTask, hv]
    refine ⟨hv, ⟨_, _, hcreate⟩, ?_⟩
    intro t0 hf
    have hupd : updateTask u id p tasks =
        Except.ok
          (tasks.map (fun x =>
            if x.id == id && x.userId == u then applyPayload x p else x),
           applyPayload t0 p) := by
      cases hc : (p.latitude.isSome || p.longitude.isSome) with
      | true => simp [updateTask, hc, hv, hf]
      | false => simp [updateTask, hc, hf]
    exact ⟨_, _, hupd⟩
  · intro hbad
    obtain ⟨e, he⟩ :=
      validate_some_of_bad p.latitude p.longitude hbad
    have hc : (p.latitude.isSome || p.longitude.isSome) = true := by
      rcases hbad with ⟨v, hv, -⟩ | ⟨v, hv, -⟩ <;> simp [hv]
    refine ⟨e, he, by simp [createTask, he], by simp [updateTask, hc, he], ?_⟩
    intro lid sid
    exact syncItem_invalid u { localId := lid, serverId := sid, fields := p }
      db e he

/-- Witness for C8: latitude 45 / longitude 90 creates fine; latitude 100 is
rejected by create with the validation error, and a sync item carrying it
errors while the store is returned unchanged. -/
theorem coordinate_range_validation_witness :
    (∃ db' t, createTask "u" goodGeo { nextId := 0, tasks := [] } =
        Except.ok (db', t)) ∧
      (∃ e, validateCoordinates badGeo.latitude badGeo.longitude = some e ∧
        createTask "u" badGeo { nextId := 0, tasks := [] } =
          Except.error e ∧
        updateTask "u" 0 badGeo [] = Except.error e ∧
        ∀ (lid : Option String) (sid : Option Nat),
          syncItem "u" { localId := lid, serverId := sid, fields := badGeo }
              { nextId := 0, tasks := [] } =
            ({ nextId := 0, tasks := [] },
             Sum.inr { localId := lid, error := e })) :=
  ⟨((coordinate_range_validation "u" goodGeo { nextId := 0, tasks := [] } 0
        []).1
      (by intro v hv; injection hv with h; subst h; norm_num)
      (by intro v hv; injection hv with h; subst h; norm_num)).2.1,
   (coordinate_range_validation "u" badGeo { nextId := 0, tasks := [] } 0
        []).2
     (Or.inl ⟨100, rfl, by norm_num⟩)⟩

/-- C5: with one gateway response per registered token and distinct token
strings, an entry survives `sendNotification`'s cleanup iff its own response
was not classified as permanently invalid — tokens with only transient
failures (or successes) are retained — and pruning is by exact token match:
any entry whose token was not collected as invalid is kept by the pull even
if it was appended after the responses were computed. -/
theorem prune_token_iff_permanent (tokens : List FcmToken)
    (responses : List SendResponse)
    (hlen : responses.length = tokens.length)
    (hnodup : (tokens.map FcmToken.token).Nodup) :
    (∀ i (hi : i < tokens.length) (hr : i < responses.length),
       (tokens.get ⟨i, hi⟩ ∈ pruneAfterSend tokens responses ↔
         isPermanentError (responses.get ⟨i, hr⟩) = false)) ∧
    (∀ n : FcmToken,
       (invalidTokens tokens responses).contains n.token = false →
       n ∈ pullTokens (tokens ++ [n]) (invalidTokens tokens responses)) := by
  constructor
  · intro i hi hr
    unfold pruneAfterSend pullTokens
    rw [List.mem_filter]
    constructor
    · rintro ⟨-, hpred⟩
      cases hperm : isPermanentError (responses.get ⟨i, hr⟩) with
      | false => rfl
      | true =>
          exfalso
          have hmem : (tokens.get ⟨i, hi⟩).token ∈
              invalidTokens tokens responses :=
            (mem_invalidTokens tokens responses _).mpr ⟨i, hi, hr, rfl, hperm⟩
          rw [Bool.not_eq_true'] at hpred
          have hc : (invalidTokens tokens responses).contains
              (tokens.get ⟨i, hi⟩).token = true :=
            List.elem_eq_true_of_mem hmem
          rw [hpred] at hc
          cases hc
    · intro hperm
      refine ⟨List.get_mem _ _ _, ?_⟩
      rw [Bool.not_eq_true']
      cases hc : (invalidTokens tokens responses).contains
          (tokens.get ⟨i, hi⟩).token with
      | false => rfl
      | true =>
          exfalso
          have hmem : (tokens.get ⟨i, hi⟩).token ∈
              invalidTokens tokens responses :=
            List.mem_of_elem_eq_true hc
          obtain ⟨j, hj, hr2, h1, h2⟩ :=
            (mem_invalidTokens tokens responses _).mp hmem
          have hidx : j = i := by
            have hmap : (tokens.map FcmToken.token).get
                ⟨j, by simpa using hj⟩ =
                (tokens.map FcmToken.token).get ⟨i, by simpa using hi⟩ := by
              simpa [List.get_map] using h1
            have hfin := (List.Nodup.get_inj_iff hnodup).mp hmap
            exact congrArg Fin.val hfin
          subst hidx
          have h2r : isPermanentError (responses.get ⟨j, hr⟩) = true := h2
          rw [hperm] at h2r
          cases h2r
  · intro n hn
    unfold pullTokens
    rw [List.mem_filter]
    refine ⟨List.mem_append_right _ (List.mem_singleton.mpr rfl), ?_⟩
    rw [Bool.not_eq_true']
    exact hn

/-- Witness for C5: with "tokA" succeeding and "tokB" reported
token-not-registered, the cleanup keeps the "tokA" entry, drops the "tokB"
entry, and keeps a freshly added third entry untouched by the pull. -/
theorem prune_token_iff_permanent_witness :
    witRegistry.get ⟨0, by decide⟩ ∈ pruneAfterSend witRegistry witResponses ∧
      ¬ witRegistry.get ⟨1, by decide⟩ ∈
          pruneAfterSend witRegistry witResponses ∧
      ({ token := "tokC", deviceId := none, updatedAt := 5 } : FcmToken) ∈
        pullTokens
          (witRegistry ++ [{ token := "tokC", deviceId := none, updatedAt := 5 }])
          (invalidTokens witRegistry witResponses) :=
  ⟨((prune_token_iff_permanent witRegistry witResponses rfl (by decide)).1
      0 (by decide) (by decide)).mpr (by decide),
   fun h => by
     have hx := ((prune_token_iff_permanent witRegistry witResponses rfl
        (by decide)).1 1 (by decide) (by decide)).mp h
     simp [witResponses, isPermanentError] at hx,
   (prune_token_iff_permanent witRegistry witResponses rfl (by decide)).2
     { token := "tokC", deviceId := none, updatedAt := 5 } (by decide)⟩

/-- C10: every create path — `POST /tasks` and both create branches of
`POST /tasks/sync` — persists the task with `completed = false`, regardless of
what the client payload says. -/
theorem create_paths_force_completed_false :
    (∀ (id : Nat) (u : String) (p : TaskPayload),
        (newTaskFromPayload id u p).completed = false) ∧
    (∀ (u : String) (p : TaskPayload) (db db' : DB) (t : Task),
        createTask u p db = Except.ok (db', t) → t.completed = false) ∧
    (∀ (u : String) (item : SyncItem) (db : DB) (ok : SyncOk),
        (syncItem u item db).2 = Sum.inl ok → ok.status = SyncStatus.created →
        (syncItem u item db).1.tasks =
          db.tasks ++ [newTaskFromPayload db.nextId u item.fields]) := by
  refine ⟨fun _ _ _ => rfl, ?_, ?_⟩
  · intro u p db db' t h
    unfold createTask at h
    cases hv : validateCoordinates p.latitude p.longitude with
    | some e => rw [hv] at h; cases h
    | none =>
        rw [hv] at h
        cases h
        rfl
  · intro u item db ok h hstatus
    cases hv : validateCoordinates item.fields.latitude item.fields.longitude with
    | some e => rw [syncItem_invalid u item db e hv] at h; cases h
    | none =>
        cases hsid : item.serverId with
        | none => rw [syncItem_create_of_noId u item db hsid hv]
        | some sid =>
            cases hf : findTask u sid db.tasks with
            | none => rw [syncItem_create_of_stale u item db sid hsid hv hf]
            | some t0 =>
                rw [syncItem_update_of_found u item db sid t0 hsid hv hf] at h
                cases h
                simp at hstatus

/-- Witness for C10: creating with a body whose `completed` is `true` still
persists `completed = false`, both via `POST /tasks` and via a sync item with
no server id. -/
theorem create_paths_force_completed_false_witness :
    (∃ db' t, createTask "u" completedBody { nextId := 0, tasks := [] } =
        Except.ok (db', t) ∧ t.completed = false) ∧
      (syncItem "u" { fields := completedBody } { nextId := 0, tasks := [] }).1.tasks =
        [] ++ [newTaskFromPayload 0 "u" completedBody] ∧
      (newTaskFromPayload 0 "u" completedBody).completed = false :=
  ⟨⟨_, _, rfl,
      create_paths_force_completed_false.2.1 "u" completedBody
        { nextId := 0, tasks := [] } _ _ rfl⟩,
   create_paths_force_completed_false.2.2 "u" { fields := completedBody }
     { nextId := 0, tasks := [] }
     { localId := none, remoteId := 0, status := SyncStatus.created } rfl rfl,
   create_paths_force_completed_false.1 0 "u" completedBody⟩

end FocusFlow

